import Mathlib

/-!
Verification of `pr_agent/tools/ticket_pr_compliance_check.py`.

This file gives a shallow embedding of the module's data model and
operations.  Python strings are modelled as Lean `String`/`List Char`
(ASCII fragment of the Unicode classes `\w`, `\d`, `\s`, which is what
every reference shape in this module uses).  Python `None` is modelled
with `Option`; a Python function that can raise is modelled with
`Except`; the Python `set()` with insertion-order dedup (`setAdd`),
matching CPython's observable "arbitrary subset" semantics with a
deterministic representative.  The two compiled regular expressions are
embedded as deterministic scanners: every character class in the
patterns excludes the character that follows it (`[^/]+` before `/`,
`\w+` before `/` and `#`, `\d+` before a boundary, `[A-Z0-9]` before
`-`), so greedy matching never needs backtracking, and the scanners
below reproduce `re.findall`'s leftmost, first-alternative semantics
exactly.
-/

/-- Character budget for ticket bodies (`MAX_TICKET_CHARACTERS = 10000`). -/
def MAX_TICKET_CHARACTERS : Nat := 10000

/-- Python `\d` on the ASCII fragment. -/
def isDigitChar (c : Char) : Bool := c.isDigit

/-- Python `\w` on the ASCII fragment: letters, digits, underscore. -/
def isWordChar (c : Char) : Bool := c.isAlphanum || c == '_'

/-- Python `[A-Z0-9]`. -/
def isUpperDigit (c : Char) : Bool := c.isUpper || c.isDigit

/-- Python `[^\s/]` on the ASCII fragment. -/
def isHostChar (c : Char) : Bool := !c.isWhitespace && c != '/'

/-- Python `[^/]`. -/
def notSlash (c : Char) : Bool := c != '/'

/-- Whether an optional preceding character is a word character (for `\b`). -/
def prevIsWord : Option Char → Bool
  | none => false
  | some c => isWordChar c

/-- Whether the next character of the rest is a word character (for a trailing `\b`). -/
def headIsWord : List Char → Bool
  | [] => false
  | c :: _ => isWordChar c

/-- Python `s[:n]`. -/
def pyTake (s : String) (n : Nat) : String := String.mk (s.data.take n)

/-- Python `s.strip('/')`: drop leading and trailing slashes. -/
def stripSlashes (s : String) : String :=
  String.mk (((s.data.dropWhile (· == '/')).reverse.dropWhile (· == '/')).reverse)

/-- Python whitespace stripped by `str.strip()` (ASCII fragment). -/
def isPyWhitespace (c : Char) : Bool :=
  c == ' ' || c == '\t' || c == '\n' || c == '\r' || c == '\x0b' || c == '\x0c'

/-- Python `s.strip()`. -/
def pyStrip (s : String) : String :=
  String.mk (((s.data.dropWhile isPyWhitespace).reverse.dropWhile isPyWhitespace).reverse)

/-- Truthiness test `not x or not x.strip()` used by the Jira config validation,
with `none` modelling a missing settings key. -/
def pyBlank : Option String → Bool
  | none => true
  | some s => s.isEmpty || (pyStrip s).isEmpty

/-- Python `set.add` with insertion order as the deterministic representative of
CPython's arbitrary set iteration order: append unless already present. -/
def setAdd (acc : List String) (x : String) : List String :=
  if x ∈ acc then acc else acc ++ [x]

/-- Match a literal character sequence; return the rest on success. -/
def matchLit : List Char → List Char → Option (List Char)
  | [], s => some s
  | _ :: _, [] => none
  | c :: cs, x :: xs => if x = c then matchLit cs xs else none

/-- Greedy `p+`: the maximal nonempty run of characters satisfying `p`,
together with the rest.  Sound for this module's patterns because each
run is always followed by a requirement the class cannot match. -/
def matchPlus (p : Char → Bool) : List Char → Option (List Char × List Char)
  | [] => none
  | c :: cs =>
    if p c then some ((c :: cs).takeWhile p, (c :: cs).dropWhile p) else none

/-- Alternative 1 of `GITHUB_TICKET_PATTERN`:
`https://github[^/]+/[^/]+/[^/]+/issues/\d+`.  Returns the full match
and the rest. -/
def matchAlt1 (s : List Char) : Option (List Char × List Char) :=
  match matchLit "https://github".data s with
  | none => none
  | some s1 =>
    match matchPlus notSlash s1 with
    | none => none
    | some (host, s2) =>
      match s2 with
      | '/' :: s3 =>
        match matchPlus notSlash s3 with
        | none => none
        | some (ow, s4) =>
          match s4 with
          | '/' :: s5 =>
            match matchPlus notSlash s5 with
            | none => none
            | some (rp, s6) =>
              match matchLit "/issues/".data s6 with
              | none => none
              | some s7 =>
                match matchPlus isDigitChar s7 with
                | none => none
                | some (ds, s8) =>
                  some ("https://github".data ++ host ++ '/' :: ow ++ '/' :: rp
                        ++ "/issues/".data ++ ds, s8)
          | _ => none
      | _ => none

/-- Alternative 2 of `GITHUB_TICKET_PATTERN`: `\b(\w+)/(\w+)#(\d+)\b`.
Returns the three captured groups and the rest. -/
def matchAlt2 (prev : Option Char) (s : List Char) :
    Option ((List Char × List Char × List Char) × List Char) :=
  if prevIsWord prev then none
  else
    match matchPlus isWordChar s with
    | none => none
    | some (ow, s1) =>
      match s1 with
      | '/' :: s2 =>
        match matchPlus isWordChar s2 with
        | none => none
        | some (rp, s3) =>
          match s3 with
          | '#' :: s4 =>
            match matchPlus isDigitChar s4 with
            | none => none
            | some (ds, s5) =>
              if headIsWord s5 then none else some ((ow, rp, ds), s5)
          | _ => none
      | _ => none

/-- Alternative 3 of `GITHUB_TICKET_PATTERN`: `(#\d+)`. -/
def matchAlt3 : List Char → Option (List Char × List Char)
  | [] => none
  | c :: cs =>
    if c = '#' then
      match matchPlus isDigitChar cs with
      | none => none
      | some (ds, rest) => some ('#' :: ds, rest)
    else none

/-- One `findall` match of `GITHUB_TICKET_PATTERN`, tagged by which
alternative participated (the other groups are empty strings in Python). -/
inductive GHMatch where
  | url (u : List Char)
  | shorthand (owner repo num : List Char)
  | bare (tok : List Char)
deriving DecidableEq, Repr

/-- Try the three alternatives at one position, leftmost alternative first,
exactly as the regex engine does. -/
def stepGH (prev : Option Char) (s : List Char) : Option (GHMatch × List Char) :=
  match matchAlt1 s with
  | some (m, rest) => some (.url m, rest)
  | none =>
    match matchAlt2 prev s with
    | some ((ow, rp, ds), rest) => some (.shorthand ow rp ds, rest)
    | none =>
      match matchAlt3 s with
      | some (m, rest) => some (.bare m, rest)
      | none => none

/-- Last character consumed by a match (the following scan position's
preceding character for `\b`). -/
def lastCharOf : GHMatch → Option Char
  | .url m => m.getLast?
  | .shorthand _ _ ds => ds.getLast?
  | .bare m => m.getLast?

/-- Scan for non-overlapping matches left to right, resuming after each
match, with fuel bounding the number of scan positions (initial fuel =
input length suffices since every step consumes at least one character). -/
def scanGH : Nat → Option Char → List Char → List GHMatch
  | 0, _, _ => []
  | _ + 1, _, [] => []
  | fuel + 1, prev, c :: cs =>
    match stepGH prev (c :: cs) with
    | some (m, rest) => m :: scanGH fuel (lastCharOf m) rest
    | none => scanGH fuel (some c) cs

/-- `GITHUB_TICKET_PATTERN.findall(pr_description)`. -/
def findGithubMatches (s : String) : List GHMatch :=
  scanGH s.data.length none s.data

/-- Core of both Jira patterns: `[A-Z0-9]{2,10}-\d{1,7}\b` (no leading
boundary; the bounded greedy repetitions are deterministic because every
continuation character after a maximal class run is outside the class). -/
def matchJiraKey (s : List Char) : Option (List Char × List Char) :=
  match matchPlus isUpperDigit s with
  | none => none
  | some (run, s1) =>
    if run.length < 2 || run.length > 10 then none
    else
      match s1 with
      | '-' :: s2 =>
        match matchPlus isDigitChar s2 with
        | none => none
        | some (ds, s3) =>
          if ds.length > 7 then none
          else if headIsWord s3 then none
          else some (run ++ '-' :: ds, s3)
      | _ => none

/-- Tail of the optional URL part after the scheme: `[^\s/]+/browse/`. -/
def matchBrowseTail (s : List Char) : Option (List Char) :=
  match matchPlus isHostChar s with
  | none => none
  | some (_, s1) => matchLit "/browse/".data s1

/-- Optional URL part of the second Jira pattern: `https?://[^\s/]+/browse/`. -/
def matchBrowseUrl (s : List Char) : Option (List Char) :=
  match matchLit "http".data s with
  | none => none
  | some s1 =>
    match matchLit "s://".data s1 with
    | some s2 => matchBrowseTail s2
    | none =>
      match matchLit "://".data s1 with
      | some s2 => matchBrowseTail s2
      | none => none

/-- Second Jira pattern at one position:
`(?:https?://[^\s/]+/browse/)?([A-Z0-9]{2,10}-\d{1,7})\b`, returning the
captured key.  When the optional prefix matches but the key after it does
not, the engine retries without the prefix at the same position. -/
def matchJira2At (s : List Char) : Option (List Char × List Char) :=
  match matchBrowseUrl s with
  | some s1 =>
    match matchJiraKey s1 with
    | some r => some r
    | none => matchJiraKey s
  | none => matchJiraKey s

/-- `re.findall` scan for the first Jira pattern `\b[A-Z0-9]{2,10}-\d{1,7}\b`
(the leading `\b` reduces to "previous character is not a word character"
since the class is all word characters). -/
def scanJira1 : Nat → Option Char → List Char → List (List Char)
  | 0, _, _ => []
  | _ + 1, _, [] => []
  | fuel + 1, prev, c :: cs =>
    if prevIsWord prev then scanJira1 fuel (some c) cs
    else
      match matchJiraKey (c :: cs) with
      | some (m, rest) => m :: scanJira1 fuel m.getLast? rest
      | none => scanJira1 fuel (some c) cs

/-- `re.findall` scan for the second Jira pattern (no leading boundary). -/
def scanJira2 : Nat → List Char → List (List Char)
  | 0, _ => []
  | _ + 1, [] => []
  | fuel + 1, c :: cs =>
    match matchJira2At (c :: cs) with
    | some (k, rest) => k :: scanJira2 fuel rest
    | none => scanJira2 fuel cs

/-- Body of `find_jira_tickets` on an actual string: union the matches of
both patterns into the insertion-ordered set, skipping falsy matches
(`if ticket:`).  The tuple branch of the Python loop is dead code here:
each pattern has at most one group, so `findall` yields strings. -/
def findJiraKeys (t : String) : List String :=
  let m1 := scanJira1 t.data.length none t.data
  let m2 := scanJira2 t.data.length t.data
  ((m1 ++ m2).map fun l => String.mk l).foldl
    (fun acc tk => if tk = "" then acc else setAdd acc tk) []

/-- Python `find_jira_tickets(text)`.  Passing `None` reaches
`re.findall(pattern, None)`, which raises `TypeError`; the function has no
handler, so the exception propagates (modelled as `Except.error`). -/
def find_jira_tickets (text : Option String) : Except String (List String) :=
  match text with
  | none => Except.error "TypeError: expected string or bytes-like object"
  | some t => Except.ok (findJiraKeys t)

/-- Python `_truncate_text(text, max_length=MAX_TICKET_CHARACTERS)`:
falsy input (`None` or the empty string) yields `""`; a string longer
than the budget yields its first `max_length` characters plus `"..."`. -/
def truncate_text (text : Option String) (max_length : Nat := MAX_TICKET_CHARACTERS) :
    String :=
  match text with
  | none => ""
  | some t =>
    if t = "" then ""
    else if t.length > max_length then pyTake t max_length ++ "..."
    else t

/-- Python `str.isdigit()` on a character list: nonempty and all digits. -/
def pyIsDigitStr (l : List Char) : Bool := !l.isEmpty && l.all isDigitChar

/-- Loop body of `extract_ticket_links_from_pr_description`: process one
`findall` match, adding the derived URL to the insertion-ordered set.
`base_stripped` is `base_url_html.strip('/')`; a bare `#number` is kept
only when the number is all digits, shorter than 5 digits, and the repo
path is truthy (non-empty). -/
def processGHMatch (repo_path base_stripped : String) (acc : List String) :
    GHMatch → List String
  | .url u => setAdd acc (String.mk u)
  | .shorthand ow rp num =>
    setAdd acc (base_stripped ++ "/" ++ String.mk ow ++ "/" ++ String.mk rp
                ++ "/issues/" ++ String.mk num)
  | .bare tok =>
    let num := tok.drop 1
    if pyIsDigitStr num ∧ num.length < 5 ∧ repo_path ≠ "" then
      setAdd acc (base_stripped ++ "/" ++ repo_path ++ "/issues/" ++ String.mk num)
    else acc

/-- The deduplicated reference set built from all matches of the pattern,
before the cap of 3 is applied (the value of `github_tickets` right after
the `for` loop). -/
def extractAllTicketRefs (pr_description repo_path base_url_html : String) :
    List String :=
  (findGithubMatches pr_description).foldl
    (processGHMatch repo_path (stripSlashes base_url_html)) []

/-- Python `extract_ticket_links_from_pr_description(pr_description,
repo_path, base_url_html)`.  A `None` description makes `findall` raise
`TypeError`, which the surrounding `except Exception` absorbs, leaving
the set empty.  More than 3 distinct references are truncated to 3. -/
def extract_ticket_links_from_pr_description (pr_description : Option String)
    (repo_path : String) (base_url_html : String := "https://github.com") :
    List String :=
  match pr_description with
  | none => []
  | some d =>
    let tickets := extractAllTicketRefs d repo_path base_url_html
    if tickets.length > 3 then tickets.take 3 else tickets

/-- Child record built for GitHub sub-issues and Jira subtasks
(`{"ticket_url", "title", "body"}`). -/
structure SubRecord where
  ticket_url : String
  title : String
  body : String
deriving DecidableEq, Repr

/-- Normalized ticket record.  Optional fields model dict keys that only
some sources emit: `status` only by the Jira fetcher, `requirements` only
by the Azure fetcher, `sub_issues` by the GitHub and Jira fetchers. -/
structure TicketRecord where
  ticket_id : String
  ticket_url : String
  title : String
  body : String
  labels : Option String := none
  status : Option String := none
  requirements : Option String := none
  sub_issues : Option (List SubRecord) := none
deriving DecidableEq, Repr

/-- A GitHub label: either an object with a `name` attribute or a plain
value (`label.name if hasattr(label, "name") else label`). -/
inductive GHLabel where
  | obj (name : String)
  | plain (s : String)
deriving DecidableEq, Repr

/-- GitHub issue as consumed here (`issue{number, title, body, labels}`);
`body` may be `None`. -/
structure GithubIssue where
  number : Nat
  title : String
  body : Option String := none
  labels : List GHLabel := []
deriving DecidableEq, Repr

/-- GithubProvider collaborator surface used by this module.  Fallible
calls return `Except` (a Python exception). -/
structure GithubData where
  user_description : String
  repo : String
  base_url_html : String := "https://github.com"
  pr_url : String
  parse_issue_url : String → Except String (String × Nat)
  get_issue : Nat → Except String GithubIssue
  fetch_sub_issues : String → Except String (List String)

/-- Linked work item returned by `get_linked_work_items`, with the `dict.get`
defaults the Azure fetcher applies. -/
structure WorkItem where
  id : String
  url : String
  title : String
  body : String := ""
  acceptance_criteria : String := ""
  labels : List String := []
deriving DecidableEq, Repr

/-- AzureDevopsProvider collaborator surface used by this module. -/
structure AzureData where
  user_description : String
  pr_url : String
  linked_work_items : Except String (List WorkItem)

/-- Any provider that is neither a GithubProvider nor an AzureDevopsProvider
(the `isinstance` chain falls through both branches). -/
structure OtherData where
  user_description : String
  pr_url : String

/-- The git provider passed to `extract_tickets`; the `isinstance` branches
are mutually exclusive by construction. -/
inductive GitProvider where
  | github (g : GithubData)
  | azure (a : AzureData)
  | other (o : OtherData)

/-- Python `git_provider.get_user_description()`. -/
def GitProvider.user_description : GitProvider → String
  | .github g => g.user_description
  | .azure a => a.user_description
  | .other o => o.user_description

/-- Python `git_provider.pr_url`. -/
def GitProvider.prUrl : GitProvider → String
  | .github g => g.pr_url
  | .azure a => a.pr_url
  | .other o => o.pr_url

/-- Reference to a Jira subtask (`subtask.key`). -/
structure SubtaskRef where
  key : String
deriving DecidableEq, Repr

/-- Jira issue fields as consumed here.  `none` models an absent attribute
(or a `None` value where the code collapses both to the same default):
`getattr(fields, "description", "")`, `getattr(fields, "labels", []) or []`,
`getattr(fields, "summary", "")`, `getattr(fields.status, "name", "Unknown")`,
`hasattr(fields, "subtasks") and fields.subtasks`. -/
structure JiraFields where
  description : Option String := none
  labels : Option (List String) := none
  summary : Option String := none
  status_name : Option String := none
  subtasks : Option (List SubtaskRef) := none
deriving DecidableEq, Repr

/-- Jira issue: `issue.fields`. -/
structure JiraIssue where
  fields : JiraFields
deriving DecidableEq, Repr

/-- Connected Jira client: `.issue(key)` fetches one issue or raises. -/
structure JiraClient where
  issue : String → Except String JiraIssue

/-- External Jira world: constructing `JIRA(options, basic_auth, timeout)`
either yields a connected client or raises (JIRAError, network error, or
any other exception — all caught by the same handlers). -/
structure JiraEnv where
  connect : String → String → String → Except String JiraClient

/-- Settings store as consumed by this module: the fixed dotted keys it
reads (with their `get` defaults applied) plus the dynamic
`related_tickets_<pr_url>` cache keys. -/
structure Settings where
  require_ticket_analysis_review : Bool := false
  enable_jira_integration : Bool := true
  jira_base_url : Option String := none
  jira_api_email : Option String := none
  jira_api_token : Option String := none
  cache : String → Option (List TicketRecord) := fun _ => none

/-- Python `get_settings().set(key, value)` on a cache key. -/
def Settings.setCache (s : Settings) (key : String) (v : List TicketRecord) : Settings :=
  { s with cache := fun k => if k = key then some v else s.cache k }

/-- Python `_extract_github_labels(issue_main)`: label names, accepting
objects with a `name` attribute or plain values. -/
def extract_github_labels (issue : GithubIssue) : List String :=
  issue.labels.map fun l =>
    match l with
    | .obj n => n
    | .plain v => v

/-- Python `_extract_github_sub_issues(git_provider, ticket)`: a failure
listing sub-issues yields `[]`; a failure resolving or fetching one
sub-issue skips that sub-issue only. -/
def extract_github_sub_issues (g : GithubData) (ticket : String) : List SubRecord :=
  match g.fetch_sub_issues ticket with
  | .error _ => []
  | .ok subs =>
    subs.filterMap fun su =>
      match g.parse_issue_url su with
      | .error _ => none
      | .ok (_, n) =>
        match g.get_issue n with
        | .error _ => none
        | .ok sub =>
          some { ticket_url := su, title := sub.title, body := truncate_text sub.body }

/-- Python `_extract_github_tickets(git_provider, user_description)`:
extract reference URLs, then fetch each; a failure parsing or fetching a
main issue skips that reference only. -/
def extract_github_tickets (g : GithubData) (user_description : String) :
    List TicketRecord :=
  let github_tickets :=
    extract_ticket_links_from_pr_description (some user_description) g.repo g.base_url_html
  github_tickets.filterMap fun ticket =>
    match g.parse_issue_url ticket with
    | .error _ => none
    | .ok (_, n) =>
      match g.get_issue n with
      | .error _ => none
      | .ok issue_main =>
        some { ticket_id := "GH-" ++ toString issue_main.number
               ticket_url := ticket
               title := issue_main.title
               body := truncate_text issue_main.body
               labels := some (String.intercalate ", " (extract_github_labels issue_main))
               sub_issues := some (extract_github_sub_issues g ticket) }

/-- Python `_validate_jira_config(jira_url, jira_email, jira_token)`. -/
def validate_jira_config (jira_url jira_email jira_token : Option String) :
    List String :=
  (if pyBlank jira_url then ["jira_base_url"] else [])
    ++ (if pyBlank jira_email then ["jira_api_email"] else [])
    ++ (if pyBlank jira_token then ["jira_api_token"] else [])

/-- Python `_extract_jira_subtasks(jira_client, issue, jira_url)`: no
`subtasks` attribute (or a falsy one) yields `[]`; a failure fetching one
subtask skips that subtask only. -/
def extract_jira_subtasks (client : JiraClient) (issue : JiraIssue) (jira_url : String) :
    List SubRecord :=
  match issue.fields.subtasks with
  | none => []
  | some subs =>
    subs.filterMap fun st =>
      match client.issue st.key with
      | .error _ => none
      | .ok sub =>
        some { ticket_url := jira_url ++ "/browse/" ++ st.key
               title := sub.fields.summary.getD ""
               body := truncate_text sub.fields.description }

/-- Python `_extract_single_jira_ticket(jira_client, key, jira_url)`: a
failed fetch (JIRAError or any other exception) is logged and yields
`None`; on success the record is built with the `getattr` defaults. -/
def extract_single_jira_ticket (client : JiraClient) (key jira_url : String) :
    Option TicketRecord :=
  match client.issue key with
  | .error _ => none
  | .ok issue =>
    some { ticket_id := key
           ticket_url := jira_url ++ "/browse/" ++ key
           title := issue.fields.summary.getD ""
           body := truncate_text issue.fields.description
           status := some (issue.fields.status_name.getD "Unknown")
           labels := some (String.intercalate ", " (issue.fields.labels.getD []))
           sub_issues := some (extract_jira_subtasks client issue jira_url) }

/-- Python `_extract_jira_tickets_sync(user_description)`.  The second
component records the observable side effect "a `JIRA(...)` client
construction was attempted": `false` on every gate short-circuit (no key
extracted, integration disabled, incomplete configuration), `true` once
control reaches the connection.  A connection failure of any kind is
caught and yields the empty batch. -/
def extract_jira_tickets_sync (s : Settings) (env : JiraEnv) (user_description : String) :
    List TicketRecord × Bool :=
  let jira_keys := findJiraKeys user_description
  if jira_keys.isEmpty || !s.enable_jira_integration then ([], false)
  else
    let missing := validate_jira_config s.jira_base_url s.jira_api_email s.jira_api_token
    if !missing.isEmpty then ([], false)
    else
      let jira_url := s.jira_base_url.getD ""
      match env.connect jira_url (s.jira_api_email.getD "") (s.jira_api_token.getD "") with
      | .error _ => ([], true)
      | .ok client =>
        (jira_keys.filterMap fun key => extract_single_jira_ticket client key jira_url, true)

/-- Python `_extract_jira_tickets(user_description)` (async wrapper): the
thread-pool delegation returns the synchronous result; its own handler is
unreachable since the synchronous body absorbs every exception. -/
def extract_jira_tickets (s : Settings) (env : JiraEnv) (user_description : String) :
    List TicketRecord :=
  (extract_jira_tickets_sync s env user_description).1

/-- Python `_extract_azure_devops_tickets(git_provider)`: a failure listing
work items yields `[]`; the per-item handler is unreachable in the model
since record construction cannot raise. -/
def extract_azure_devops_tickets (a : AzureData) : List TicketRecord :=
  match a.linked_work_items with
  | .error _ => []
  | .ok items =>
    items.map fun t =>
      { ticket_id := t.id
        ticket_url := t.url
        title := t.title
        body := truncate_text (some t.body)
        requirements := some t.acceptance_criteria
        labels := some (String.intercalate ", " t.labels) }

/-- Records contributed by the provider-specific branch of the `isinstance`
chain (the spec's "primary-provider records"). -/
def primaryProviderTickets (p : GitProvider) : List TicketRecord :=
  match p with
  | .github g => extract_github_tickets g g.user_description
  | .azure a => extract_azure_devops_tickets a
  | .other _ => []

/-- Python `extract_tickets(git_provider)`: accumulate the provider-branch
records by `extend`, then always `extend` with the Jira records.  The
outer handler is unreachable in the model since both branches absorb
their own failures. -/
def extract_tickets (s : Settings) (env : JiraEnv) (p : GitProvider) :
    List TicketRecord :=
  let tickets_content : List TicketRecord := []
  let user_description := p.user_description
  let tickets_content := tickets_content ++
    (match p with
     | .github g => extract_github_tickets g user_description
     | .azure a => extract_azure_devops_tickets a
     | .other _ => [])
  let jira_tickets := extract_jira_tickets s env user_description
  tickets_content ++ jira_tickets

/-- Value stored in the template-variables dict: the module only ever writes
a list of ticket records, other keys may hold anything else. -/
inductive PyVal where
  | ticketList (ts : List TicketRecord)
  | str (v : String)
deriving DecidableEq, Repr

/-- The `vars` dict passed to `extract_and_cache_pr_tickets`. -/
def VarsDict : Type := String → Option PyVal

/-- Python `vars[key] = value`. -/
def setVar (v : VarsDict) (key : String) (x : PyVal) : VarsDict :=
  fun k => if k = key then some x else v k

/-- Truthiness of the cached settings value (`if cached_data:`): `None`
and the empty list are falsy. -/
def truthyCache : Option (List TicketRecord) → Bool
  | none => false
  | some l => !l.isEmpty

/-- Python `extract_and_cache_pr_tickets(git_provider, vars)`.  The third
component records the observable side effect "the orchestrator
`extract_tickets` was invoked during this call". -/
def extract_and_cache_pr_tickets (s : Settings) (env : JiraEnv) (p : GitProvider)
    (vars : VarsDict) : Settings × VarsDict × Bool :=
  if !s.require_ticket_analysis_review then
    (s, setVar vars "related_tickets" (.ticketList []), false)
  else
    let key := "related_tickets_" ++ p.prUrl
    let cached_data := s.cache key
    if truthyCache cached_data then
      (s, setVar vars "related_tickets" (.ticketList (cached_data.getD [])), false)
    else
      let tickets_content := extract_tickets s env p
      if !tickets_content.isEmpty then
        (s.setCache key tickets_content,
         setVar vars "related_tickets" (.ticketList tickets_content), true)
      else
        (s.setCache key [], setVar vars "related_tickets" (.ticketList []), true)

/-! ## Supporting lemmas -/

/-- An added element is in the set. -/
theorem mem_setAdd_self (acc : List String) (x : String) : x ∈ setAdd acc x := by
  unfold setAdd
  split
  · assumption
  · simp

/-- Adding preserves membership. -/
theorem mem_setAdd_of_mem {acc : List String} {y : String} (x : String)
    (h : y ∈ acc) : y ∈ setAdd acc x := by
  unfold setAdd
  split
  · exact h
  · exact List.mem_append_left _ h

/-- Processing one match preserves membership in the accumulated set. -/
theorem mem_processGHMatch_of_mem (rp b : String) {acc : List String} {y : String}
    (m : GHMatch) (h : y ∈ acc) : y ∈ processGHMatch rp b acc m := by
  cases m with
  | url u => exact mem_setAdd_of_mem _ h
  | shorthand ow r n => exact mem_setAdd_of_mem _ h
  | bare tok =>
    simp only [processGHMatch]
    split
    · exact mem_setAdd_of_mem _ h
    · exact h

/-- Folding the match list preserves membership in the accumulated set. -/
theorem mem_foldl_processGHMatch_of_mem (rp b : String) {y : String}
    (ms : List GHMatch) : ∀ acc, y ∈ acc →
    y ∈ ms.foldl (processGHMatch rp b) acc := by
  induction ms with
  | nil => intro acc h; exact h
  | cons m tl ih =>
    intro acc h
    exact ih _ (mem_processGHMatch_of_mem rp b m h)

/-- If some match of the list contributes `y` from every accumulator, `y` is
in the folded set. -/
theorem mem_foldl_processGHMatch (rp b : String) {y : String} {m : GHMatch}
    (ms : List GHMatch) (hm : m ∈ ms)
    (hadd : ∀ acc, y ∈ processGHMatch rp b acc m) :
    ∀ acc, y ∈ ms.foldl (processGHMatch rp b) acc := by
  induction ms with
  | nil => cases hm
  | cons a tl ih =>
    intro acc
    rcases List.mem_cons.mp hm with h | h
    · subst h
      exact mem_foldl_processGHMatch_of_mem rp b tl _ (hadd acc)
    · exact ih h _

/-- A successful greedy run is nonempty and all its characters satisfy the
class predicate. -/
theorem matchPlus_spec {p : Char → Bool} {s run rest : List Char}
    (h : matchPlus p s = some (run, rest)) :
    run ≠ [] ∧ run.all p = true := by
  cases s with
  | nil => simp [matchPlus] at h
  | cons c cs =>
    simp only [matchPlus] at h
    split at h
    · rename_i hp
      rw [Option.some.injEq, Prod.mk.injEq] at h
      obtain ⟨h1, _⟩ := h
      subst h1
      constructor
      · rw [List.takeWhile_cons_of_pos hp]
        exact List.cons_ne_nil _ _
      · rw [List.all_eq_true]
        intro a ha
        exact List.mem_takeWhile_imp ha
    · simp at h

/-- A successful third-alternative match is a hash followed by a nonempty
digit run. -/
theorem matchAlt3_shape {s m rest : List Char}
    (h : matchAlt3 s = some (m, rest)) :
    ∃ ds, m = '#' :: ds ∧ pyIsDigitStr ds = true := by
  cases s with
  | nil => simp [matchAlt3] at h
  | cons c cs =>
    simp only [matchAlt3] at h
    split at h
    · cases hmp : matchPlus isDigitChar cs with
      | none => rw [hmp] at h; simp at h
      | some r =>
        obtain ⟨ds, rest'⟩ := r
        rw [hmp] at h
        rw [Option.some.injEq, Prod.mk.injEq] at h
        obtain ⟨h1, _⟩ := h
        obtain ⟨hne, hall⟩ := matchPlus_spec hmp
        refine ⟨ds, h1.symm, ?_⟩
        unfold pyIsDigitStr
        rw [Bool.and_eq_true]
        exact ⟨by simpa [List.isEmpty_iff] using hne, hall⟩
    · simp at h

/-- A step that produces a bare match did so via the third alternative. -/
theorem stepGH_bare {prev : Option Char} {s tok rest : List Char}
    (h : stepGH prev s = some (.bare tok, rest)) :
    matchAlt3 s = some (tok, rest) := by
  unfold stepGH at h
  cases h1 : matchAlt1 s with
  | some r => obtain ⟨m, rs⟩ := r; rw [h1] at h; simp at h
  | none =>
    rw [h1] at h
    cases h2 : matchAlt2 prev s with
    | some r => obtain ⟨⟨ow, rp, ds⟩, rs⟩ := r; rw [h2] at h; simp at h
    | none =>
      rw [h2] at h
      cases h3 : matchAlt3 s with
      | some r =>
        obtain ⟨m, rs⟩ := r
        rw [h3] at h
        rw [Option.some.injEq, Prod.mk.injEq] at h
        obtain ⟨hm, hr⟩ := h
        cases hm
        rw [hr]
      | none => rw [h3] at h; simp at h

/-- Every bare token produced by the scan is a hash followed by a nonempty,
all-digit run. -/
theorem scanGH_bare_shape :
    ∀ (fuel : Nat) (prev : Option Char) (s tok : List Char),
      GHMatch.bare tok ∈ scanGH fuel prev s →
      ∃ ds, tok = '#' :: ds ∧ pyIsDigitStr ds = true := by
  intro fuel
  induction fuel with
  | zero => intro prev s tok h; simp [scanGH] at h
  | succ n ih =>
    intro prev s tok h
    cases s with
    | nil => simp [scanGH] at h
    | cons c cs =>
      rw [scanGH] at h
      cases hs : stepGH prev (c :: cs) with
      | none =>
        rw [hs] at h
        exact ih _ _ _ h
      | some r =>
        obtain ⟨m, rest⟩ := r
        rw [hs] at h
        rcases List.mem_cons.mp h with h1 | h1
        · cases m with
          | url u => exact absurd h1 (by simp)
          | shorthand ow rp ds => exact absurd h1 (by simp)
          | bare t =>
            cases h1
            exact matchAlt3_shape (stepGH_bare hs)
        · exact ih _ _ _ h1

/-- Truncated text never exceeds the budget plus the ellipsis length. -/
theorem truncate_text_length_le (o : Option String) :
    (truncate_text o).length ≤ MAX_TICKET_CHARACTERS + 3 := by
  cases o with
  | none => simp [truncate_text]
  | some t =>
    simp only [truncate_text]
    split
    · simp
    · split
      · rename_i hlen
        rw [String.length_append]
        have h1 : (pyTake t MAX_TICKET_CHARACTERS).length = MAX_TICKET_CHARACTERS := by
          rw [pyTake, String.length_mk, List.length_take]
          exact Nat.min_eq_left (Nat.le_of_lt hlen)
        have h2 : ("..." : String).length = 3 := rfl
        omega
      · rename_i hlen
        omega

/-- A record emitted for a single Jira key has a budget-bounded body. -/
theorem extract_single_jira_ticket_body {client : JiraClient} {key jira_url : String}
    {r : TicketRecord} (h : extract_single_jira_ticket client key jira_url = some r) :
    r.body.length ≤ MAX_TICKET_CHARACTERS + 3 := by
  unfold extract_single_jira_ticket at h
  cases hi : client.issue key with
  | error e =>
    rw [hi] at h
    exact Option.noConfusion h
  | ok issue =>
    simp only [hi, Option.some.injEq] at h
    subst h
    exact truncate_text_length_le _

/-- Records from the GitHub branch have budget-bounded bodies. -/
theorem extract_github_tickets_body {g : GithubData} {d : String} {r : TicketRecord}
    (h : r ∈ extract_github_tickets g d) :
    r.body.length ≤ MAX_TICKET_CHARACTERS + 3 := by
  unfold extract_github_tickets at h
  rw [List.mem_filterMap] at h
  obtain ⟨t, -, hf⟩ := h
  cases h1 : g.parse_issue_url t with
  | error e =>
    simp only [h1] at hf
    exact Option.noConfusion hf
  | ok pr =>
    obtain ⟨rn, n⟩ := pr
    simp only [h1] at hf
    cases h2 : g.get_issue n with
    | error e =>
      simp only [h2] at hf
      exact Option.noConfusion hf
    | ok issue =>
      simp only [h2, Option.some.injEq] at hf
      subst hf
      exact truncate_text_length_le _

/-- Records from the Azure branch have budget-bounded bodies. -/
theorem extract_azure_tickets_body {a : AzureData} {r : TicketRecord}
    (h : r ∈ extract_azure_devops_tickets a) :
    r.body.length ≤ MAX_TICKET_CHARACTERS + 3 := by
  unfold extract_azure_devops_tickets at h
  cases hl : a.linked_work_items with
  | error e => simp only [hl] at h; simp at h
  | ok items =>
    simp only [hl, List.mem_map] at h
    obtain ⟨t, -, ht⟩ := h
    subst ht
    exact truncate_text_length_le (some t.body)

/-- Records from the Jira branch have budget-bounded bodies. -/
theorem extract_jira_sync_body {s : Settings} {env : JiraEnv} {d : String}
    {r : TicketRecord} (h : r ∈ (extract_jira_tickets_sync s env d).1) :
    r.body.length ≤ MAX_TICKET_CHARACTERS + 3 := by
  simp only [extract_jira_tickets_sync] at h
  split at h
  · simp at h
  · split at h
    · simp at h
    · split at h
      · simp at h
      · simp only at h
        rw [List.mem_filterMap] at h
        obtain ⟨k, -, hk⟩ := h
        exact extract_single_jira_ticket_body hk

/-- Every record emitted by the orchestrator has a budget-bounded body. -/
theorem extract_tickets_body {s : Settings} {env : JiraEnv} {p : GitProvider}
    {r : TicketRecord} (h : r ∈ extract_tickets s env p) :
    r.body.length ≤ MAX_TICKET_CHARACTERS + 3 := by
  cases p with
  | github g =>
    simp only [extract_tickets, List.nil_append, GitProvider.user_description] at h
    rcases List.mem_append.mp h with h1 | h1
    · exact extract_github_tickets_body h1
    · exact extract_jira_sync_body h1
  | azure a =>
    simp only [extract_tickets, List.nil_append, GitProvider.user_description] at h
    rcases List.mem_append.mp h with h1 | h1
    · exact extract_azure_tickets_body h1
    · exact extract_jira_sync_body h1
  | other o =>
    simp only [extract_tickets, List.nil_append, GitProvider.user_description] at h
    exact extract_jira_sync_body h

/-! ## Claim theorems -/

/-- C3: `_truncate_text` maps a body strictly longer than the 10000-character
budget to exactly its first 10000 characters followed by the ellipsis marker
`"..."`, leaves a body at or under the budget unchanged, and consequently
every ticket-record body (in particular every record produced by
`extract_tickets`) has length at most the budget plus the ellipsis length. -/
theorem truncate_text_spec :
    (∀ t : String, MAX_TICKET_CHARACTERS < t.length →
        truncate_text (some t) = pyTake t MAX_TICKET_CHARACTERS ++ "..." ∧
        (truncate_text (some t)).length = MAX_TICKET_CHARACTERS + 3) ∧
    (∀ t : String, t.length ≤ MAX_TICKET_CHARACTERS → truncate_text (some t) = t) ∧
    (∀ o : Option String, (truncate_text o).length ≤ MAX_TICKET_CHARACTERS + 3) ∧
    (∀ (s : Settings) (env : JiraEnv) (p : GitProvider) (r : TicketRecord),
        r ∈ extract_tickets s env p → r.body.length ≤ MAX_TICKET_CHARACTERS + 3) := by
  refine ⟨?_, ?_, truncate_text_length_le, fun s env p r h => extract_tickets_body h⟩
  · intro t ht
    have hne : t ≠ "" := by
      intro he
      subst he
      have h0 : ("" : String).length = 0 := rfl
      omega
    have heq : truncate_text (some t) = pyTake t MAX_TICKET_CHARACTERS ++ "..." := by
      simp only [truncate_text, if_neg hne]
      rw [if_pos ht]
    refine ⟨heq, ?_⟩
    rw [heq, String.length_append]
    have h1 : (pyTake t MAX_TICKET_CHARACTERS).length = MAX_TICKET_CHARACTERS := by
      rw [pyTake, String.length_mk, List.length_take]
      exact Nat.min_eq_left (Nat.le_of_lt ht)
    have h2 : ("..." : String).length = 3 := rfl
    omega
  · intro t ht
    by_cases he : t = ""
    · subst he
      rfl
    · simp only [truncate_text, if_neg he]
      rw [if_neg (by omega)]

/-- C3 witness: a concrete short body is returned unchanged. -/
theorem truncate_text_spec_witness :
    ("hello" : String).length ≤ MAX_TICKET_CHARACTERS ∧
    truncate_text (some "hello") = "hello" :=
  ⟨by decide, truncate_text_spec.2.1 "hello" (by decide)⟩

/-- C8 counterexample: with a missing (`None`) description, `find_jira_tickets`
does not return the empty list — `re.findall(pattern, None)` raises
`TypeError` and the function has no handler, so the call raises. -/
theorem find_jira_tickets_none_raises :
    find_jira_tickets none =
      Except.error "TypeError: expected string or bytes-like object" := rfl

/-- C8 (amended): with empty text both extractors return the empty list
without raising; with a missing (`None`) description
`extract_ticket_links_from_pr_description` still returns the empty list
(its internal handler absorbs the `TypeError`) but `find_jira_tickets`
raises a `TypeError`. -/
theorem empty_description_yields_no_refs :
    find_jira_tickets (some "") = Except.ok [] ∧
    (∀ rp b : String, extract_ticket_links_from_pr_description (some "") rp b = []) ∧
    (∀ rp b : String, extract_ticket_links_from_pr_description none rp b = []) ∧
    ∃ e, find_jira_tickets none = Except.error e :=
  ⟨rfl, fun _ _ => rfl, fun _ _ => rfl, ⟨_, rfl⟩⟩

/-- C2: every call of `extract_and_cache_pr_tickets` terminates without an
exception (the model is a total function) and leaves
`vars["related_tickets"]` bound to a list of ticket records. -/
theorem extract_and_cache_always_sets_related_tickets
    (s : Settings) (env : JiraEnv) (p : GitProvider) (vars : VarsDict) :
    ∃ ts, (extract_and_cache_pr_tickets s env p vars).2.1 "related_tickets" =
      some (PyVal.ticketList ts) := by
  simp only [extract_and_cache_pr_tickets]
  split
  · refine ⟨[], ?_⟩
    simp [setVar]
  · split
    · refine ⟨(s.cache ("related_tickets_" ++ p.prUrl)).getD [], ?_⟩
      simp [setVar]
    · split
      · refine ⟨extract_tickets s env p, ?_⟩
        simp [setVar]
      · refine ⟨[], ?_⟩
        simp [setVar]

/-- C10: `extract_and_cache_pr_tickets` writes only the key
`"related_tickets"` of the vars dict; every other key is unchanged. -/
theorem extract_and_cache_frame
    (s : Settings) (env : JiraEnv) (p : GitProvider) (vars : VarsDict)
    (k : String) (hk : k ≠ "related_tickets") :
    (extract_and_cache_pr_tickets s env p vars).2.1 k = vars k := by
  simp only [extract_and_cache_pr_tickets]
  split
  · simp [setVar, hk]
  · split
    · simp [setVar, hk]
    · split
      · simp [setVar, hk]
      · simp [setVar, hk]

/-- Concrete sample collaborators for witnesses and counterexamples. -/
def sampleSettings : Settings :=
  { require_ticket_analysis_review := true }

/-- A Jira environment whose connection always fails. -/
def sampleJiraEnv : JiraEnv :=
  ⟨fun _ _ _ => Except.error "connection refused"⟩

/-- A provider that is neither GitHub nor Azure, with a reference-free
description. -/
def sampleProvider : GitProvider :=
  .other { user_description := "no tickets here", pr_url := "https://github.com/o/r/pull/1" }

/-- An initially empty vars dict. -/
def sampleVars : VarsDict := fun _ => none

/-- C10 witness: a concrete unrelated key is untouched. -/
theorem extract_and_cache_frame_witness :
    "pr_id" ≠ "related_tickets" ∧
    (extract_and_cache_pr_tickets sampleSettings sampleJiraEnv sampleProvider
        sampleVars).2.1 "pr_id" = sampleVars "pr_id" :=
  ⟨by decide,
   extract_and_cache_frame sampleSettings sampleJiraEnv sampleProvider sampleVars
     "pr_id" (by decide)⟩

/-- C7: the orchestrator returns the primary-provider records (GitHub or
Azure branch, mutually exclusive constructors) first, then the Jira
records, concatenated with no deduplication (the lengths add up even when
records coincide). -/
theorem extract_tickets_concat_order (s : Settings) (env : JiraEnv) (p : GitProvider) :
    extract_tickets s env p =
      primaryProviderTickets p ++ extract_jira_tickets s env p.user_description ∧
    (extract_tickets s env p).length =
      (primaryProviderTickets p).length +
        (extract_jira_tickets s env p.user_description).length := by
  have h : extract_tickets s env p =
      primaryProviderTickets p ++ extract_jira_tickets s env p.user_description := by
    cases p <;> rfl
  exact ⟨h, by rw [h, List.length_append]⟩

/-- C6: with Jira integration disabled no Jira client is constructed and
the result is empty, even when the description contains Jira keys; the
same skip (empty result, no client) happens when no Jira key is extracted
or when any of the three configuration values is missing or blank. -/
theorem jira_gate_skips :
    (∀ (s : Settings) (env : JiraEnv) (d : String),
        s.enable_jira_integration = false →
        extract_jira_tickets_sync s env d = ([], false)) ∧
    (∀ (s : Settings) (env : JiraEnv) (d : String),
        findJiraKeys d = [] →
        extract_jira_tickets_sync s env d = ([], false)) ∧
    (∀ (s : Settings) (env : JiraEnv) (d : String),
        (pyBlank s.jira_base_url = true ∨ pyBlank s.jira_api_email = true ∨
          pyBlank s.jira_api_token = true) →
        extract_jira_tickets_sync s env d = ([], false)) := by
  refine ⟨?_, ?_, ?_⟩
  · intro s env d h
    simp [extract_jira_tickets_sync, h]
  · intro s env d h
    simp [extract_jira_tickets_sync, h]
  · intro s env d h
    have hne : validate_jira_config s.jira_base_url s.jira_api_email s.jira_api_token
        ≠ [] := by
      unfold validate_jira_config
      by_cases h1 : pyBlank s.jira_base_url <;>
        by_cases h2 : pyBlank s.jira_api_email <;>
          by_cases h3 : pyBlank s.jira_api_token <;> simp_all
    simp only [extract_jira_tickets_sync]
    split
    · rfl
    · cases hv : validate_jira_config s.jira_base_url s.jira_api_email s.jira_api_token with
      | nil => exact absurd hv hne
      | cons a l => simp [hv]

/-- A settings store with the Jira integration flag off. -/
def sampleFlagOffSettings : Settings := { enable_jira_integration := false }

/-- C6 witness: with the flag off and a description containing a Jira key,
no client is constructed and the result is empty. -/
theorem jira_gate_skips_witness :
    sampleFlagOffSettings.enable_jira_integration = false ∧
    extract_jira_tickets_sync sampleFlagOffSettings sampleJiraEnv "ABC-123" = ([], false) :=
  ⟨rfl, jira_gate_skips.1 sampleFlagOffSettings sampleJiraEnv "ABC-123" rfl⟩

/-- C9: whenever the fetch of a Jira key succeeds, a record is emitted whose
status is the issue's status name with default `"Unknown"` when the name is
absent, and whose labels default to the join of the empty list when labels
are absent; absent status information never suppresses the record. -/
theorem single_jira_ticket_defaults (client : JiraClient) (key jira_url : String)
    (issue : JiraIssue) (h : client.issue key = Except.ok issue) :
    ∃ r, extract_single_jira_ticket client key jira_url = some r ∧
      r.status = some (issue.fields.status_name.getD "Unknown") ∧
      (issue.fields.status_name = none → r.status = some "Unknown") ∧
      (issue.fields.labels = none → r.labels = some "") := by
  have hr : extract_single_jira_ticket client key jira_url = some
      { ticket_id := key
        ticket_url := jira_url ++ "/browse/" ++ key
        title := issue.fields.summary.getD ""
        body := truncate_text issue.fields.description
        status := some (issue.fields.status_name.getD "Unknown")
        labels := some (String.intercalate ", " (issue.fields.labels.getD []))
        sub_issues := some (extract_jira_subtasks client issue jira_url) } := by
    unfold extract_single_jira_ticket
    rw [h]
  refine ⟨_, hr, rfl, ?_, ?_⟩
  · intro h2
    rw [h2]
    rfl
  · intro h3
    rw [h3]
    rfl

/-- A Jira issue with every optional attribute absent. -/
def sampleJiraIssue : JiraIssue := { fields := {} }

/-- A Jira client whose fetches always succeed with the bare issue. -/
def sampleJiraClient : JiraClient := ⟨fun _ => Except.ok sampleJiraIssue⟩

/-- C9 witness: a concrete successful fetch of an issue without status or
labels emits a record with status `"Unknown"` and empty labels. -/
theorem single_jira_ticket_defaults_witness :
    sampleJiraClient.issue "PROJ-1" = Except.ok sampleJiraIssue ∧
    ∃ r, extract_single_jira_ticket sampleJiraClient "PROJ-1" "https://jira.example"
        = some r ∧
      r.status = some (sampleJiraIssue.fields.status_name.getD "Unknown") ∧
      (sampleJiraIssue.fields.status_name = none → r.status = some "Unknown") ∧
      (sampleJiraIssue.fields.labels = none → r.labels = some "") :=
  ⟨rfl, single_jira_ticket_defaults sampleJiraClient "PROJ-1" "https://jira.example"
    sampleJiraIssue rfl⟩

/-- C1 (code-bug evidence): starting from an empty cache with the review
flag enabled and an extraction that yields no tickets, the first call
invokes the orchestrator and stores the empty list under the cache key,
yet the second call invokes the orchestrator again: the truthiness test
`if cached_data:` treats the stored empty list as a cache miss, although
the source's own comments state that presence alone should count
(`we just check if it exists`, `cache the empty result too, to avoid
re-fetching`). -/
theorem cache_truthiness_refetches_empty_result :
    sampleSettings.cache ("related_tickets_" ++ sampleProvider.prUrl) = none ∧
    (extract_and_cache_pr_tickets sampleSettings sampleJiraEnv sampleProvider
        sampleVars).2.2 = true ∧
    (extract_and_cache_pr_tickets sampleSettings sampleJiraEnv sampleProvider
        sampleVars).1.cache ("related_tickets_" ++ sampleProvider.prUrl) = some [] ∧
    (extract_and_cache_pr_tickets
        (extract_and_cache_pr_tickets sampleSettings sampleJiraEnv sampleProvider
          sampleVars).1
        sampleJiraEnv sampleProvider
        (extract_and_cache_pr_tickets sampleSettings sampleJiraEnv sampleProvider
          sampleVars).2.1).2.2 = true := by
  refine ⟨rfl, rfl, ?_, ?_⟩ <;> rfl

/-- C5: the returned reference list never exceeds 3 elements; when more than
3 distinct references were found, exactly 3 are returned, all drawn from
the found set. -/
theorem ticket_links_capped_at_three :
    (∀ (d : Option String) (rp b : String),
        (extract_ticket_links_from_pr_description d rp b).length ≤ 3) ∧
    (∀ (t rp b : String),
        3 < (extractAllTicketRefs t rp b).length →
        (extract_ticket_links_from_pr_description (some t) rp b).length = 3 ∧
        extract_ticket_links_from_pr_description (some t) rp b ⊆
          extractAllTicketRefs t rp b) := by
  constructor
  · intro d rp b
    cases d with
    | none => simp [extract_ticket_links_from_pr_description]
    | some t =>
      simp only [extract_ticket_links_from_pr_description]
      split
      · rw [List.length_take]
        exact Nat.min_le_left _ _
      · rename_i hle
        omega
  · intro t rp b h
    constructor
    · simp only [extract_ticket_links_from_pr_description]
      rw [if_pos h, List.length_take]
      exact Nat.min_eq_left (by omega)
    · simp only [extract_ticket_links_from_pr_description]
      rw [if_pos h]
      exact List.take_subset 3 _

/-- C5 witness: a description with four distinct bare references is capped
to exactly three returned references. -/
theorem ticket_links_capped_at_three_witness :
    3 < (extractAllTicketRefs "#1 #2 #3 #4" "o/r" "https://github.com").length ∧
    (extract_ticket_links_from_pr_description (some "#1 #2 #3 #4") "o/r"
        "https://github.com").length = 3 :=
  ⟨by decide,
   (ticket_links_capped_at_three.2 "#1 #2 #3 #4" "o/r" "https://github.com"
     (by decide)).1⟩

/-- C4 counterexample: the claimed equivalence fails in both directions at
concrete inputs.  With four distinct bare references the cap of 3 drops
one of them (`#4` is bare and one digit, yet its URL is absent), and with
a full URL present alongside a five-digit bare `#99999` the corresponding
URL is in the result even though the bare number has five digits. -/
theorem bare_ref_inclusion_counterexample :
    GHMatch.bare ['#', '4'] ∈ findGithubMatches "#1 #2 #3 #4" ∧
    "https://github.com/o/r/issues/4" ∉
      extract_ticket_links_from_pr_description (some "#1 #2 #3 #4") "o/r"
        "https://github.com" ∧
    GHMatch.bare ['#', '9', '9', '9', '9', '9'] ∈
      findGithubMatches "https://github.com/o/r/issues/99999 #99999" ∧
    "https://github.com/o/r/issues/99999" ∈
      extract_ticket_links_from_pr_description
        (some "https://github.com/o/r/issues/99999 #99999") "o/r"
        "https://github.com" :=
  ⟨by decide, by decide, by decide, by decide⟩

/-- C4 (amended): a bare reference `#N` with at most 4 digits and a
non-empty repo path always contributes its rewritten URL, and the URL is
in the returned list whenever at most 3 distinct references were found in
total (with more, the arbitrary cap may drop it); a bare reference with 5
or more digits contributes nothing itself (the processing step leaves the
accumulated set unchanged), though the same URL may still enter via
another reference shape. -/
theorem bare_ref_inclusion_amended :
    (∀ (t rp b : String) (ds : List Char),
        GHMatch.bare ('#' :: ds) ∈ findGithubMatches t →
        ds.length ≤ 4 → rp ≠ "" →
        (extractAllTicketRefs t rp b).length ≤ 3 →
        (stripSlashes b ++ "/" ++ rp ++ "/issues/" ++ String.mk ds) ∈
          extract_ticket_links_from_pr_description (some t) rp b) ∧
    (∀ (rp b : String) (acc : List String) (ds : List Char),
        5 ≤ ds.length →
        processGHMatch rp b acc (.bare ('#' :: ds)) = acc) := by
  constructor
  · intro t rp b ds hmem hlen hrp hcap
    obtain ⟨ds2, heq, hdig⟩ := scanGH_bare_shape _ _ _ _ hmem
    injection heq with h1 h2
    subst h2
    have hadd : ∀ acc,
        (stripSlashes b ++ "/" ++ rp ++ "/issues/" ++ String.mk ds) ∈
          processGHMatch rp (stripSlashes b) acc (.bare ('#' :: ds)) := by
      intro acc
      simp only [processGHMatch, List.drop_succ_cons, List.drop_zero]
      rw [if_pos ⟨hdig, by omega, hrp⟩]
      exact mem_setAdd_self _ _
    have hall : (stripSlashes b ++ "/" ++ rp ++ "/issues/" ++ String.mk ds) ∈
        extractAllTicketRefs t rp b :=
      mem_foldl_processGHMatch rp (stripSlashes b) _ hmem hadd []
    simp only [extract_ticket_links_from_pr_description]
    rw [if_neg (by omega)]
    exact hall
  · intro rp b acc ds h5
    have hno : ¬ (pyIsDigitStr (ds : List Char) = true ∧ ds.length < 5 ∧ rp ≠ "") := by
      intro hc
      exact absurd hc.2.1 (by omega)
    simp only [processGHMatch, List.drop_succ_cons, List.drop_zero]
    rw [if_neg hno]

/-- C4 witness: a concrete description with one bare reference `#7` and a
non-empty repo path yields the rewritten URL. -/
theorem bare_ref_inclusion_amended_witness :
    GHMatch.bare ['#', '7'] ∈ findGithubMatches "see #7" ∧
    (extractAllTicketRefs "see #7" "o/r" "https://github.com").length ≤ 3 ∧
    (stripSlashes "https://github.com" ++ "/" ++ "o/r" ++ "/issues/"
        ++ String.mk ['7']) ∈
      extract_ticket_links_from_pr_description (some "see #7") "o/r"
        "https://github.com" :=
  ⟨by decide, by decide,
   bare_ref_inclusion_amended.1 "see #7" "o/r" "https://github.com" ['7']
     (by decide) (by decide) (by decide) (by decide)⟩
